import Mathlib

/-!
Shallow embedding of the document scoring and creditworthiness aggregation
engine of the repository (Python sources under ml/).  Feature dictionaries
become fixed-field structures over `Rat` and `Bool`; Python `dict.get`
defaults are particular structure values; Python truthiness of optional
floats (`None` and `0.0` are falsy) is modelled on `Option Rat`.
All float arithmetic is modelled exactly over `Rat`.
-/

/-- Mirrors the DocumentStatus enumeration of models/document_models.py and
the status strings of generate_dataset.py. -/
inductive Status where
  | VALID
  | SUSPICIOUS
  | INVALID
  | INCOMPLETE
deriving DecidableEq, Repr

/-- Mirrors the DocumentType enumeration of models/document_models.py. -/
inductive DocType where
  | paySlip
  | taxDeclaration
  | bankStatement
  | incomeConsistency
  | loanPayments
deriving DecidableEq, Repr

/-- Python expression max(0, min(100, s)) used by every scorer. -/
def clip100 (x : Rat) : Rat := max 0 (min 100 x)

/-- Python round(x, 2) (banker's tie behaviour replaced by round-half-up;
no claim depends on exact ties). -/
def round2 (x : Rat) : Rat := ((round (x * 100) : Int) : Rat) / 100

/-- Python round(x, 3). -/
def round3 (x : Rat) : Rat := ((round (x * 1000) : Int) : Rat) / 1000

/-- Python round(x, 1). -/
def round1 (x : Rat) : Rat := ((round (x * 10) : Int) : Rat) / 10

/-- Python truthiness of an optional float: None and 0.0 are falsy.
Returns the value exactly when it is truthy. -/
def truthyVal (o : Option Rat) : Option Rat :=
  match o with
  | none => none
  | some v => if v = 0 then none else some v

/-! ## Feature dictionaries (keys listed in services/scoring_service.py) -/

/-- CIN feature dictionary. -/
structure CinFeatures where
  is_expired : Bool
  ocr_confidence : Rat
  image_quality : Rat
  has_photo : Bool
  text_legible : Bool
  correct_format : Bool
deriving DecidableEq, Repr

/-- Pay slip feature dictionary. -/
structure PayslipFeatures where
  gross_salary : Rat
  net_salary : Rat
  total_deductions : Rat
  has_company_stamp : Bool
  amounts_match : Bool
  has_required_fields : Bool
  salary_consistency : Rat
  months_since_issue : Int
deriving DecidableEq, Repr

/-- Tax declaration feature dictionary. -/
structure TaxFeatures where
  gross_income : Rat
  taxable_income : Rat
  tax_paid : Rat
  has_official_stamp : Bool
  calculations_correct : Bool
  all_fields_filled : Bool
  income_reasonable : Bool
  years_since_declaration : Int
deriving DecidableEq, Repr

/-- Bank statement feature dictionary. -/
structure BankFeatures where
  period_months : Int
  opening_balance : Rat
  closing_balance : Rat
  average_balance : Rat
  total_credits : Rat
  total_debits : Rat
  avg_monthly_income : Rat
  avg_monthly_expenses : Rat
  savings_rate : Rat
  low_balance_incidents : Int
  has_bank_header : Bool
  balances_match : Bool
  regular_income : Bool
deriving DecidableEq, Repr

/-! ## services/scoring_service.py : DocumentScoringService -/

/-- Embeds DocumentScoringService._fallback_cin_score. -/
def fallback_cin_score (f : CinFeatures) : Rat :=
  let s : Rat := 70
  let s := if f.is_expired then s - 30 else s
  let s := if f.ocr_confidence < 0.7 then s - 20 else s
  let s := if !f.has_photo then s - 25 else s
  let s := if !f.text_legible then s - 15 else s
  clip100 s

/-- Embeds DocumentScoringService._fallback_payslip_score. -/
def fallback_payslip_score (f : PayslipFeatures) : Rat :=
  let s := min 100 (f.net_salary / 100)
  let s := if !f.has_company_stamp then s - 20 else s
  let s := if !f.amounts_match then s - 30 else s
  let s := if f.months_since_issue > 3 then s - 15 else s
  clip100 s

/-- Embeds DocumentScoringService._fallback_tax_score. -/
def fallback_tax_score (f : TaxFeatures) : Rat :=
  let s := min 100 (f.taxable_income / 1000)
  let s := if !f.has_official_stamp then s - 25 else s
  let s := if !f.calculations_correct then s - 35 else s
  let s := if f.years_since_declaration > 2 then s - 20 else s
  clip100 s

/-- Embeds DocumentScoringService._fallback_bank_score. -/
def fallback_bank_score (f : BankFeatures) : Rat :=
  let s := min 100 (f.average_balance / 100) * 0.3 +
           min 100 (f.avg_monthly_income / 50) * 0.7
  let s := if !f.regular_income then s - 20 else s
  let s := if f.low_balance_incidents > 2 then s - 25 else s
  let s := if f.savings_rate < 0 then s - 15 else s
  clip100 s

/-- Embeds DocumentScoringService.score_cin.  The trained regressor is an
arbitrary real-valued function (`some m`); when the model is missing or
prediction raises, the rule-based fallback is used (`none` covers both,
since the except branch returns exactly the fallback value). -/
def score_cin (model : Option (CinFeatures → Rat)) (f : CinFeatures) : Rat :=
  match model with
  | none => fallback_cin_score f
  | some m => clip100 (m f)

/-- Embeds DocumentScoringService.score_payslip. -/
def score_payslip (model : Option (PayslipFeatures → Rat)) (f : PayslipFeatures) : Rat :=
  match model with
  | none => fallback_payslip_score f
  | some m => clip100 (m f)

/-- Embeds DocumentScoringService.score_tax. -/
def score_tax (model : Option (TaxFeatures → Rat)) (f : TaxFeatures) : Rat :=
  match model with
  | none => fallback_tax_score f
  | some m => clip100 (m f)

/-- Embeds DocumentScoringService.score_bank. -/
def score_bank (model : Option (BankFeatures → Rat)) (f : BankFeatures) : Rat :=
  match model with
  | none => fallback_bank_score f
  | some m => clip100 (m f)

/-! ## train_model.py : DocumentAnalysisModel.predict_document -/

/-- Prediction record returned by DocumentAnalysisModel.predict_document. -/
structure Prediction where
  status : Status
  confidence : Rat
  score : Rat
deriving DecidableEq, Repr

/-- Embeds DocumentAnalysisModel.predict_document after the fitted
classifier and regressor have produced their raw outputs: the classifier
gives a status and a class probability, the regressor a raw score which the
code clips to [0, 100] and rounds to two decimals. -/
def predict_document (st : Status) (conf : Rat) (regOut : Rat) : Prediction :=
  { status := st,
    confidence := round3 conf,
    score := round2 (clip100 regOut) }

/-! ## generate_dataset.py : ground-truth labeling rules -/

/-- Embeds the status decision tree of generate_cin_data. -/
def cin_status_rule (f : CinFeatures) : Status :=
  if f.is_expired ∨ f.ocr_confidence < 0.5 ∨ ¬f.has_photo ∨ ¬f.text_legible then
    Status.INVALID
  else if f.ocr_confidence < 0.65 ∨ f.image_quality < 0.6 ∨ ¬f.correct_format then
    Status.SUSPICIOUS
  else
    Status.VALID

/-- Embeds the score formula of generate_cin_data (before the two-decimal
rounding applied when the row is stored). -/
def cin_score_rule (f : CinFeatures) : Rat :=
  f.ocr_confidence * 40 + f.image_quality * 30 +
    (if !f.is_expired then (1 : Rat) else 0) * 20 +
    (if f.has_photo then (1 : Rat) else 0) * 5 +
    (if f.text_legible then (1 : Rat) else 0) * 5

/-- Embeds the status decision tree of generate_payslip_data. -/
def payslip_status_rule (f : PayslipFeatures) : Status :=
  if ¬f.amounts_match ∨ ¬f.has_required_fields then
    Status.INVALID
  else if ¬f.has_company_stamp ∨ f.salary_consistency < 0.6 then
    Status.SUSPICIOUS
  else if f.months_since_issue > 3 then
    Status.INCOMPLETE
  else
    Status.VALID

/-! ## services/ml_model_service.py : rule-based fallback analyses -/

/-- Result dictionary of the MLModelService fallback analyses: status,
clipped score, fixed confidence 0.7, and the degenerate single-class
probability map (its lone probability). -/
structure FallbackResult where
  status : Status
  score : Rat
  confidence : Rat
  prob : Rat
deriving DecidableEq, Repr

/-- Python conditional expression shared by all four fallbacks:
VALID if score >= 70 else SUSPICIOUS if score >= 50 else INVALID,
applied to the score before the final clip. -/
def statusOfScore (s : Rat) : Status :=
  if 70 ≤ s then Status.VALID
  else if 50 ≤ s then Status.SUSPICIOUS
  else Status.INVALID

/-- Unclipped score of MLModelService._fallback_cin_analysis. -/
def fallback_cin_pre (f : CinFeatures) : Rat :=
  let s : Rat := 70
  let s := if f.is_expired then s - 30 else s
  let s := if f.ocr_confidence < 0.7 then s - 20 else s
  let s := if !f.has_photo then s - 25 else s
  s

/-- Embeds MLModelService._fallback_cin_analysis. -/
def fallback_cin_analysis (f : CinFeatures) : FallbackResult :=
  let s := fallback_cin_pre f
  { status := statusOfScore s, score := clip100 s, confidence := 0.7, prob := 0.7 }

/-- Unclipped score of MLModelService._fallback_payslip_analysis. -/
def fallback_payslip_pre (f : PayslipFeatures) : Rat :=
  let s := min 100 (f.net_salary / 100)
  let s := if !f.has_company_stamp then s - 20 else s
  let s := if !f.amounts_match then s - 30 else s
  s

/-- Embeds MLModelService._fallback_payslip_analysis. -/
def fallback_payslip_analysis (f : PayslipFeatures) : FallbackResult :=
  let s := fallback_payslip_pre f
  { status := statusOfScore s, score := clip100 s, confidence := 0.7, prob := 0.7 }

/-- Unclipped score of MLModelService._fallback_tax_analysis. -/
def fallback_tax_pre (f : TaxFeatures) : Rat :=
  let s := min 100 (f.taxable_income / 1000)
  let s := if !f.has_official_stamp then s - 25 else s
  let s := if !f.calculations_correct then s - 35 else s
  s

/-- Embeds MLModelService._fallback_tax_analysis. -/
def fallback_tax_analysis (f : TaxFeatures) : FallbackResult :=
  let s := fallback_tax_pre f
  { status := statusOfScore s, score := clip100 s, confidence := 0.7, prob := 0.7 }

/-- Unclipped score of MLModelService._fallback_bank_analysis. -/
def fallback_bank_pre (f : BankFeatures) : Rat :=
  let s := min 100 (f.average_balance / 100) * 0.3 +
           min 100 (f.avg_monthly_income / 50) * 0.7
  let s := if !f.regular_income then s - 20 else s
  let s := if f.low_balance_incidents > 2 then s - 25 else s
  s

/-- Embeds MLModelService._fallback_bank_analysis. -/
def fallback_bank_analysis (f : BankFeatures) : FallbackResult :=
  let s := fallback_bank_pre f
  { status := statusOfScore s, score := clip100 s, confidence := 0.7, prob := 0.7 }

/-! ## services/document_scorer.py : DocumentCreditScorer (the aggregator) -/

/-- DocumentAnalysisResult as consumed by the aggregator: type, status,
score, confidence, and the two extracted_data entries the aggregator reads
(net_salary on pay slips, gross_annual_income on tax declarations). -/
structure AnalyzedDoc where
  docType : DocType
  status : Status
  score : Rat
  confidence : Rat
  net_salary : Option Rat := none
  gross_annual_income : Option Rat := none
deriving DecidableEq, Repr

/-- income_data dictionary built by calculate_income_score. -/
structure IncomeData where
  monthly_income : Rat
  annual_income : Rat
deriving DecidableEq, Repr

/-- Net salaries collected from the pay-slip documents (truthy values only,
as in the Python loop appending net_sal when it is truthy). -/
def payslipSalaries (docs : List AnalyzedDoc) : List Rat :=
  (docs.filter (fun d => d.docType = DocType.paySlip)).filterMap
    (fun d => truthyVal d.net_salary)

/-- Truthy gross_annual_income values of the tax-declaration documents. -/
def taxAnnualIncomes (docs : List AnalyzedDoc) : List Rat :=
  (docs.filter (fun d => d.docType = DocType.taxDeclaration)).filterMap
    (fun d => truthyVal d.gross_annual_income)

/-- Income-level points of calculate_income_score (Moroccan context buckets). -/
def incomeLevelPoints (avg : Rat) : Rat :=
  if 15000 ≤ avg then 40
  else if 10000 ≤ avg then 30
  else if 7000 ≤ avg then 20
  else if 4000 ≤ avg then 10
  else 5

/-- Income consistency bonus of calculate_income_score for two or more
salaries: spread over average bucketed. -/
def incomeConsistencyBonus (salaries : List Rat) (avg : Rat) : Rat :=
  let spread := ((salaries.max?).getD 0) - ((salaries.min?).getD 0)
  let r := if 0 < avg then spread / avg else 1
  if r < 0.05 then 20
  else if r < 0.15 then 15
  else if r < 0.25 then 10
  else 5

/-- Embeds DocumentCreditScorer.calculate_income_score: the clipped income
score together with the income_data dictionary. -/
def calculate_income_score (docs : List AnalyzedDoc) : Rat × IncomeData :=
  let salaries := payslipSalaries docs
  let annuals := taxAnnualIncomes docs
  let avg := salaries.sum / (salaries.length : Rat)
  let base :=
    if salaries.length = 0 then 0
    else incomeLevelPoints avg +
      (if 2 ≤ salaries.length then incomeConsistencyBonus salaries avg else 0)
  let score := base + 10 * (annuals.length : Rat)
  (min score 100,
   { monthly_income := if salaries.length = 0 then 0 else avg,
     annual_income := (annuals.getLast?).getD 0 })

/-- Embeds DocumentCreditScorer.calculate_consistency_score. -/
def calculate_consistency_score (docs : List AnalyzedDoc) : Rat :=
  if docs.length = 0 then 0
  else
    let n : Rat := (docs.length : Rat)
    let validPart := (((docs.filter (fun d => d.status = Status.VALID)).length : Rat) / n) * 40
    let scorePart := ((docs.map (fun d => d.score)).sum / n) / 100 * 30
    let confPart := ((docs.map (fun d => d.confidence)).sum / n) * 30
    min (validPart + scorePart + confPart) 100

/-- Embeds DocumentCreditScorer.calculate_debt_ratio_score: returns the
bucketed score and the debt-to-income percentage (0, 0 on nonpositive
income, so no division by zero ever happens). -/
def calculate_debt_ratio_score (mi rc mp : Rat) : Rat × Rat :=
  if mi ≤ 0 then (0, 0)
  else
    let dr := mp / mi * 100
    let s : Rat :=
      if dr ≤ 25 then 100
      else if dr ≤ 33 then 80
      else if dr ≤ 40 then 60
      else if dr ≤ 50 then 40
      else 20
    (s, dr)

/-- Mean document score used for document_quality_score (0 when the list is
empty, guarded as in the Python conditional expression). -/
def document_quality_score (docs : List AnalyzedDoc) : Rat :=
  if docs.length = 0 then 0
  else (docs.map (fun d => d.score)).sum / (docs.length : Rat)

/-- Weighted overall score of evaluate_creditworthiness (the Python local
variable overall_score before the two-decimal output rounding). -/
def overall_raw (income cons debt quality : Rat) : Rat :=
  income * 0.35 + cons * 0.25 + debt * 0.30 + quality * 0.10

/-- CreditworthinessScore record of models/document_models.py. -/
structure CreditScore where
  overall_score : Rat
  income_score : Rat
  consistency_score : Rat
  debt_ratio_score : Rat
  document_quality_score : Rat
  rating : String
  decision : String
  confidence : Rat
  risk_level : String
  monthly_income : Rat
  debt_to_income : Rat
  strengths : List String
  weaknesses : List String
  required_documents : List String
  missing_documents : List String
deriving DecidableEq, Repr

/-- Embeds DocumentCreditScorer.evaluate_creditworthiness. -/
def evaluate_creditworthiness (docs : List AnalyzedDoc) (rc mp : Rat) : CreditScore :=
  let inc := calculate_income_score docs
  let income_score := inc.1
  let cons := calculate_consistency_score docs
  let debt := calculate_debt_ratio_score inc.2.monthly_income rc mp
  let quality := document_quality_score docs
  let overall := overall_raw income_score cons debt.1 quality
  let rdr :=
    if 80 ≤ overall then ("Excellent", "Approved", "Low")
    else if 65 ≤ overall then ("Good", "Approved", "Low")
    else if 50 ≤ overall then ("Fair", "Review", "Medium")
    else if 35 ≤ overall then ("Poor", "Review", "High")
    else ("Rejected", "Rejected", "High")
  let conf := min ((cons + quality) / 200) 1
  let strengths :=
    (if 70 ≤ income_score then ["Strong income level"] else []) ++
    (if 80 ≤ debt.1 then ["Low debt-to-income ratio"] else []) ++
    (if 70 ≤ cons then ["Consistent documentation"] else []) ++
    (if 75 ≤ quality then ["High quality documents"] else [])
  let weaknesses :=
    (if income_score < 40 then ["Low income level"] else []) ++
    (if debt.1 < 50 then ["High debt-to-income ratio"] else []) ++
    (if cons < 50 then ["Inconsistent or incomplete documentation"] else []) ++
    (if quality < 50 then ["Poor quality or suspicious documents"] else [])
  let psCount := (docs.filter (fun d => d.docType = DocType.paySlip)).length
  let taxCount := (docs.filter (fun d => d.docType = DocType.taxDeclaration)).length
  let missing :=
    (if psCount < 2 then ["Pay slips (" ++ toString psCount ++ "/2)"] else []) ++
    (if taxCount < 1 then ["Tax declaration"] else [])
  { overall_score := round2 overall,
    income_score := round2 income_score,
    consistency_score := round2 cons,
    debt_ratio_score := round2 debt.1,
    document_quality_score := round2 quality,
    rating := rdr.1,
    decision := rdr.2.1,
    confidence := round3 conf,
    risk_level := rdr.2.2,
    monthly_income := inc.2.monthly_income,
    debt_to_income := round2 debt.2,
    strengths := strengths,
    weaknesses := weaknesses,
    required_documents := ["2 recent pay slips", "Tax declaration"],
    missing_documents := missing }

/-! ## services/document_analyzer.py : DocumentAnalyzer -/

/-- Per-pay-slip analysis entry consumed by
calculate_overall_creditworthiness: its two scores and the extracted
net salary (dict.get defaults give 0 for absent keys). -/
structure PayEntry where
  salary_score : Rat
  stability_score : Rat
  net_salary : Rat
deriving DecidableEq, Repr

/-- Tax-declaration analysis entry: income and compliance scores. -/
structure TaxEntry where
  income_score : Rat
  compliance_score : Rat
deriving DecidableEq, Repr

/-- Bank-statement analysis entry: balance and cash-flow scores. -/
structure BankEntry where
  balance_score : Rat
  cash_flow_score : Rat
deriving DecidableEq, Repr

/-- Documents dictionary passed to calculate_overall_creditworthiness,
keyed by type (a present PAY_SLIP key holds a list after the
isinstance wrapping). -/
structure DocsInput where
  pay_slips : Option (List PayEntry) := none
  tax : Option TaxEntry := none
  bank : Option BankEntry := none
deriving DecidableEq, Repr

/-- Monthly income read from the most recent pay slip (0 when no pay slip
is present or the list is empty). -/
def analyzer_monthly_income (docs : DocsInput) : Rat :=
  match docs.pay_slips with
  | some (e :: _) => e.net_salary
  | _ => 0

/-- Overall score of calculate_overall_creditworthiness: weighted per-type
scores renormalised by the sum of the weights of the present types. -/
def analyzer_overall_score (docs : DocsInput) : Rat :=
  let psPart : Option Rat :=
    match docs.pay_slips with
    | some (e :: _) => some ((e.salary_score + e.stability_score) / 2)
    | _ => none
  let taxPart := docs.tax.map (fun t => (t.income_score + t.compliance_score) / 2)
  let bankPart := docs.bank.map (fun b => (b.balance_score + b.cash_flow_score) / 2)
  let total := (psPart.elim 0 (fun s => s * 0.40)) +
               (taxPart.elim 0 (fun s => s * 0.35)) +
               (bankPart.elim 0 (fun s => s * 0.25))
  let weights := (if psPart.isSome then (0.40 : Rat) else 0) +
                 (if taxPart.isSome then (0.35 : Rat) else 0) +
                 (if bankPart.isSome then (0.25 : Rat) else 0)
  if 0 < weights then total / weights * 100 else 0

/-- Debt-to-income fraction of calculate_overall_creditworthiness (only
computed when both income and payment are positive, else 0). -/
def analyzer_dti (docs : DocsInput) (mp : Rat) : Rat :=
  let mi := analyzer_monthly_income docs
  if 0 < mi ∧ 0 < mp then mp / mi else 0

/-- Rating scale of DocumentAnalyzer._get_rating. -/
def analyzer_rating (score : Rat) : String :=
  if 90 ≤ score then "EXCELLENT"
  else if 80 ≤ score then "VERY_GOOD"
  else if 70 ≤ score then "GOOD"
  else if 60 ≤ score then "FAIR"
  else if 50 ≤ score then "POOR"
  else "VERY_POOR"

/-- Embeds DocumentAnalyzer._calculate_max_credit_limit. -/
def calculate_max_credit_limit (mi score : Rat) : Rat :=
  let m : Rat :=
    if 90 ≤ score then 10 * 1.5
    else if 80 ≤ score then 10 * 1.3
    else if 70 ≤ score then 10 * 1.1
    else if 60 ≤ score then 10 * 0.9
    else 10 * 0.5
  mi * m

/-- Assessment dictionary returned by calculate_overall_creditworthiness
(the interpolated numbers of the Python reason f-strings are elided; the
fixed message text is kept). -/
structure Assessment where
  overall_score : Rat
  rating : String
  decision : String
  decision_reason : String
  is_eligible : Bool
  monthly_income : Rat
  debt_to_income : Option Rat
  max_credit_limit : Rat
  recommendations : List String
deriving DecidableEq, Repr

/-- Embeds DocumentAnalyzer.calculate_overall_creditworthiness
(min_monthly_income = 3000 MAD, max debt-to-income = 0.40). -/
def calculate_overall_creditworthiness (docs : DocsInput) (rc mp : Rat) : Assessment :=
  let overall := analyzer_overall_score docs
  let mi := analyzer_monthly_income docs
  let eligible := 60 ≤ overall ∧ 3000 ≤ mi
  let dti := analyzer_dti docs mp
  let dr : String × String :=
    if eligible then
      if 0 < dti ∧ 0.40 < dti then
        ("REJECTED", "Debt-to-income ratio too high")
      else if 80 ≤ overall then ("APPROVED", "Strong financial profile")
      else if 70 ≤ overall then ("APPROVED", "Good financial profile")
      else ("CONDITIONAL", "Acceptable profile with conditions")
    else
      ("REJECTED",
       if mi < 3000 then "Insufficient monthly income" else "Overall score too low")
  let recs :=
    (if mi < 5000 then ["Consider increasing income sources"] else []) ++
    (if overall < 70 then ["Improve financial stability before applying"] else []) ++
    (if 0.30 < dti then ["Reduce existing debt obligations"] else []) ++
    (if dr.1 = "CONDITIONAL" then ["Provide additional guarantees or co-signer"] else [])
  { overall_score := round1 overall,
    rating := analyzer_rating overall,
    decision := dr.1,
    decision_reason := dr.2,
    is_eligible := decide eligible,
    monthly_income := mi,
    debt_to_income := if 0 < dti then some (round3 dti) else none,
    max_credit_limit := round2 (calculate_max_credit_limit mi overall),
    recommendations := recs }

/-! ## services/document_parser.py : analyze_document -/

/-- Fields of the parsed PaySlipData that analyze_document inspects.
String fields only matter through their truthiness, carried as a Bool. -/
structure PaySlipParsed where
  gross_salary : Option Rat := none
  net_salary : Option Rat := none
  employer_present : Bool := false
deriving DecidableEq, Repr

/-- Fields of the parsed TaxDeclarationData that analyze_document inspects. -/
structure TaxParsed where
  gross_annual_income : Option Rat := none
  taxable_income : Option Rat := none
  fiscal_year_present : Bool := false
deriving DecidableEq, Repr

/-- Fields of the parsed BankStatementData that analyze_document inspects. -/
structure BankParsed where
  closing_balance : Option Rat := none
  holder_present : Bool := false
deriving DecidableEq, Repr

/-- Pay-slip validation of analyze_document: signed score deltas applied to
the base score 50 and the ordered validation issues. -/
def payslipChecks (p : PaySlipParsed) : Rat × List String :=
  let net := truthyVal p.net_salary
  let gross := truthyVal p.gross_salary
  let c1 : Rat × List String :=
    if net.isSome then (0, []) else (-20, ["Net salary not found"])
  let c2 : Rat × List String :=
    if p.employer_present then (0, []) else (-10, ["Employer name not found"])
  let c3 : Rat × List String :=
    match net, gross with
    | some nv, some gv =>
        if gv < nv then (-30, ["Net salary greater than gross salary - suspicious"])
        else (0, [])
    | _, _ => (0, [])
  let c4 : Rat × List String :=
    match net, gross with
    | some nv, some gv =>
        let dRatio := (gv - nv) / gv
        if 0.40 < dRatio then (-10, ["Unusually high deductions"])
        else if dRatio < 0.10 then (-5, ["Unusually low deductions"])
        else (10, [])
    | _, _ => (0, [])
  (50 + c1.1 + c2.1 + c3.1 + c4.1, c1.2 ++ c2.2 ++ c3.2 ++ c4.2)

/-- Tax-declaration validation of analyze_document. -/
def taxChecks (t : TaxParsed) : Rat × List String :=
  let gross := truthyVal t.gross_annual_income
  let taxable := truthyVal t.taxable_income
  let c1 : Rat × List String :=
    if gross.isSome then (0, []) else (-20, ["Annual income not found"])
  let c2 : Rat × List String :=
    if t.fiscal_year_present then (0, []) else (-10, ["Fiscal year not found"])
  let c3 : Rat × List String :=
    match gross, taxable with
    | some gv, some tv =>
        if gv < tv then (-30, ["Taxable income exceeds gross income - suspicious"])
        else (0, [])
    | _, _ => (0, [])
  (50 + c1.1 + c2.1 + c3.1, c1.2 ++ c2.2 ++ c3.2)

/-- Bank-statement validation of analyze_document. -/
def bankChecks (b : BankParsed) : Rat × List String :=
  let bal := truthyVal b.closing_balance
  let c1 : Rat × List String :=
    if bal.isSome then (0, []) else (-20, ["Balance not found"])
  let c2 : Rat × List String :=
    if b.holder_present then (0, []) else (-10, ["Account holder not found"])
  (50 + c1.1 + c2.1, c1.2 ++ c2.2)

/-- DocumentAnalysisResult as built by analyze_document. -/
structure AnalysisRes where
  docType : DocType
  status : Status
  confidence : Rat
  score : Rat
  validation_issues : List String
  risk_flags : List String
  recommendations : List String
deriving DecidableEq, Repr

/-- Embeds DocumentParser.analyze_document after text extraction: textLen
is the length of the extracted text (an empty extraction gives 0, so the
Python guard not text or len(text) < 50 is the single comparison), and the
three parsed records stand for the parser outputs on that text. -/
def analyze_document (dt : DocType) (textLen : Nat)
    (p : PaySlipParsed) (t : TaxParsed) (b : BankParsed) : AnalysisRes :=
  if textLen < 50 then
    { docType := dt, status := Status.INVALID, confidence := 0,
      score := 0,
      validation_issues := ["Failed to extract text from document"],
      risk_flags := ["Unreadable document"],
      recommendations := ["Upload a clearer, high-quality document"] }
  else
    let si : Rat × List String :=
      match dt with
      | DocType.paySlip => payslipChecks p
      | DocType.taxDeclaration => taxChecks t
      | DocType.bankStatement => bankChecks b
      | _ => (50, [])
    let issues := si.2
    let statusScore : Status × Rat :=
      if si.1 < 30 then (Status.INVALID, si.1)
      else if 3 < issues.length then (Status.SUSPICIOUS, si.1)
      else if 0 < issues.length then (Status.INCOMPLETE, si.1)
      else (Status.VALID, si.1 + 20)
    let score := statusScore.2
    let recs :=
      (if 0 < issues.length then ["Verify document authenticity"] else []) ++
      (if score < 50 then ["Submit additional supporting documents"] else [])
    { docType := dt, status := statusScore.1,
      confidence := min (score / 100) 1,
      score := clip100 score,
      validation_issues := issues,
      risk_flags := issues,
      recommendations := recs }


/-! ## Helper lemmas -/

lemma clip100_nonneg (x : Rat) : 0 ≤ clip100 x := le_max_left 0 _

lemma clip100_le_hundred (x : Rat) : clip100 x ≤ 100 :=
  max_le (by norm_num) (min_le_left _ _)

lemma round_rat_mono {a b : Rat} (h : a ≤ b) : round a ≤ round b := by
  rw [round_eq, round_eq]
  exact Int.floor_le_floor (by linarith)

lemma round2_nonneg {x : Rat} (h : 0 ≤ x) : 0 ≤ round2 x := by
  unfold round2
  have h0 : round (0 : Rat) ≤ round (x * 100) := round_rat_mono (by linarith)
  rw [round_zero] at h0
  have : (0 : Rat) ≤ ((round (x * 100) : Int) : Rat) := by exact_mod_cast h0
  linarith

lemma round2_le_hundred {x : Rat} (h : x ≤ 100) : round2 x ≤ 100 := by
  unfold round2
  have h0 : round (x * 100) ≤ round ((10000 : Int) : Rat) := round_rat_mono (by push_cast; linarith)
  rw [round_intCast] at h0
  have : ((round (x * 100) : Int) : Rat) ≤ 10000 := by exact_mod_cast h0
  linarith

lemma statusOfScore_eq_valid {s : Rat} : statusOfScore s = Status.VALID ↔ 70 ≤ s := by
  unfold statusOfScore
  split_ifs with h1 h2 <;> simp_all <;> linarith

lemma statusOfScore_eq_suspicious {s : Rat} :
    statusOfScore s = Status.SUSPICIOUS ↔ 50 ≤ s ∧ s < 70 := by
  unfold statusOfScore
  split_ifs with h1 h2 <;> simp_all <;> try constructor <;> intro h <;> linarith

lemma statusOfScore_eq_invalid {s : Rat} : statusOfScore s = Status.INVALID ↔ s < 50 := by
  unfold statusOfScore
  split_ifs with h1 h2 <;> simp_all <;> linarith

lemma statusOfScore_ne_incomplete (s : Rat) : statusOfScore s ≠ Status.INCOMPLETE := by
  unfold statusOfScore
  split_ifs <;> simp


/-! ## Claim theorems -/

/-- Counterexample input for C2: pay slip with mismatching amounts but a
high net salary and a company stamp. -/
def c2features : PayslipFeatures :=
  { gross_salary := 11500, net_salary := 10000, total_deductions := 1500,
    has_company_stamp := true, amounts_match := false,
    has_required_fields := true, salary_consistency := 0.9,
    months_since_issue := 1 }

/-- C2 counterexample: with amounts_match = false but net_salary = 10000
and a company stamp, the MLModelService rule-based fallback returns status
VALID (its score is min(100, 10000/100) - 30 = 70), so the fallback does
not assign INVALID regardless of the other features. -/
theorem c2_counterexample :
    c2features.amounts_match = false ∧
    (fallback_payslip_analysis c2features).status = Status.VALID := by
  refine ⟨rfl, ?_⟩
  show statusOfScore (fallback_payslip_pre c2features) = Status.VALID
  rw [statusOfScore_eq_valid]
  norm_num [fallback_payslip_pre, c2features, min_def]

/-- C2 amended: for every pay slip feature set with amounts_match = false,
the ground-truth labeling rule of generate_payslip_data assigns INVALID;
the rule-based fallback of MLModelService instead only subtracts 30 points
from the salary-based score and classifies purely by score thresholds, so
it returns INVALID exactly when that score falls below 50. -/
theorem c2_amounts_match_invalid (f : PayslipFeatures)
    (h : f.amounts_match = false) :
    payslip_status_rule f = Status.INVALID ∧
    fallback_payslip_pre f =
      min 100 (f.net_salary / 100) - (if f.has_company_stamp then 0 else 20) - 30 ∧
    ((fallback_payslip_analysis f).status = Status.INVALID ↔
      fallback_payslip_pre f < 50) := by
  refine ⟨?_, ?_, ?_⟩
  · simp [payslip_status_rule, h]
  · simp only [fallback_payslip_pre, h]
    split_ifs <;> simp_all
  · exact statusOfScore_eq_invalid

/-- Witness for C2 amended at the counterexample input. -/
theorem c2_amended_witness :
    payslip_status_rule c2features = Status.INVALID ∧
    fallback_payslip_pre c2features =
      min 100 (c2features.net_salary / 100) -
        (if c2features.has_company_stamp then 0 else 20) - 30 ∧
    ((fallback_payslip_analysis c2features).status = Status.INVALID ↔
      fallback_payslip_pre c2features < 50) :=
  c2_amounts_match_invalid c2features rfl

/-- C3: for every CIN feature set with is_expired = true, both the
ground-truth labeling rule of generate_cin_data and the rule-based
fallback of MLModelService return status INVALID (the fallback score is at
most 70 - 30 = 40 < 50), never VALID or SUSPICIOUS. -/
theorem c3_expired_always_invalid (f : CinFeatures) (h : f.is_expired = true) :
    cin_status_rule f = Status.INVALID ∧
    (fallback_cin_analysis f).status = Status.INVALID := by
  constructor
  · simp [cin_status_rule, h]
  · show statusOfScore (fallback_cin_pre f) = Status.INVALID
    rw [statusOfScore_eq_invalid]
    unfold fallback_cin_pre
    simp only [h]
    split_ifs <;> norm_num

/-- Witness for C3 at a concrete expired CIN. -/
theorem c3_witness :
    cin_status_rule
      { is_expired := true, ocr_confidence := 0.95, image_quality := 0.9,
        has_photo := true, text_legible := true, correct_format := true } = Status.INVALID ∧
    (fallback_cin_analysis
      { is_expired := true, ocr_confidence := 0.95, image_quality := 0.9,
        has_photo := true, text_legible := true, correct_format := true }).status =
      Status.INVALID :=
  c3_expired_always_invalid _ rfl

/-- C4: the aggregator applied to the empty document list is total (the
embedding is a plain function, every division is guarded) and returns
overall_score 0 and the Rejected decision, for every requested_credit and
monthly_payment. -/
theorem c4_empty_documents (rc mp : Rat) :
    (evaluate_creditworthiness [] rc mp).overall_score = 0 ∧
    (evaluate_creditworthiness [] rc mp).decision = "Rejected" := by
  simp only [evaluate_creditworthiness, calculate_income_score, payslipSalaries,
    taxAnnualIncomes, calculate_consistency_score, calculate_debt_ratio_score,
    document_quality_score, overall_raw]
  norm_num [round2]

/-- C5: for every requested_credit and monthly_payment, a nonpositive
monthly income makes calculate_debt_ratio_score return score 0 and
debt-to-income 0 without performing the division. -/
theorem c5_zero_income_zero_ratio (mi rc mp : Rat) (h : mi ≤ 0) :
    calculate_debt_ratio_score mi rc mp = (0, 0) := by
  unfold calculate_debt_ratio_score
  simp [h]

/-- Witness for C5 at income 0 and a large payment. -/
theorem c5_witness : calculate_debt_ratio_score 0 500000 99999 = (0, 0) :=
  c5_zero_income_zero_ratio 0 500000 99999 (by norm_num)

/-- CIN feature set of the C7 scenario. -/
def c7features : CinFeatures :=
  { is_expired := false, ocr_confidence := 0.92, image_quality := 0.88,
    has_photo := true, text_legible := true, correct_format := true }

/-- C7 counterexample: on the scenario feature set the rule-based score is
93.2, not approximately 86.8 (it differs from 86.8 by 6.4 > 5). -/
theorem c7_counterexample :
    cin_score_rule c7features = 93.2 ∧
    cin_score_rule c7features ≠ 86.8 ∧
    5 < |cin_score_rule c7features - 86.8| := by
  have h : cin_score_rule c7features = 93.2 := by norm_num [cin_score_rule, c7features]
  refine ⟨h, ?_, ?_⟩ <;> rw [h] <;> norm_num [abs_of_nonneg]

/-- C7 amended: on the scenario feature set the rule-based score is 93.2,
which is the correct sum 0.4·92 + 0.3·88 + 0.2·100 + 0.05·100 + 0.05·100
of the formula quoted by the scenario, and the status is VALID. -/
theorem c7_scenario_score :
    cin_score_rule c7features =
      0.4 * 92 + 0.3 * 88 + 0.2 * 100 + 0.05 * 100 + 0.05 * 100 ∧
    cin_score_rule c7features = 93.2 ∧
    cin_status_rule c7features = Status.VALID := by
  refine ⟨by norm_num [cin_score_rule, c7features], by norm_num [cin_score_rule, c7features], ?_⟩
  simp only [cin_status_rule, c7features]
  norm_num

lemma clip_status_spec {s : Rat} (hs : s ≤ 100) :
    (statusOfScore s = Status.VALID ↔ 70 ≤ clip100 s) ∧
    (statusOfScore s = Status.SUSPICIOUS ↔ 50 ≤ clip100 s ∧ clip100 s < 70) ∧
    (statusOfScore s = Status.INVALID ↔ clip100 s < 50) ∧
    statusOfScore s ≠ Status.INCOMPLETE := by
  have hc : clip100 s = max 0 s := by unfold clip100; rw [min_eq_right hs]
  rw [hc]
  refine ⟨?_, ?_, ?_, statusOfScore_ne_incomplete s⟩
  · rw [statusOfScore_eq_valid, le_max_iff]
    constructor
    · exact fun h => Or.inr h
    · rintro (h | h)
      · linarith
      · exact h
  · rw [statusOfScore_eq_suspicious, le_max_iff, max_lt_iff]
    constructor
    · rintro ⟨h1, h2⟩; exact ⟨Or.inr h1, by norm_num, h2⟩
    · rintro ⟨h1 | h1, _, h2⟩
      · linarith
      · exact ⟨h1, h2⟩
  · rw [statusOfScore_eq_invalid, max_lt_iff]
    constructor
    · exact fun h => ⟨by norm_num, h⟩
    · exact fun h => h.2

lemma fallback_cin_pre_le (f : CinFeatures) : fallback_cin_pre f ≤ 100 := by
  unfold fallback_cin_pre; split_ifs <;> norm_num

lemma fallback_payslip_pre_le (f : PayslipFeatures) : fallback_payslip_pre f ≤ 100 := by
  unfold fallback_payslip_pre
  have := min_le_left (100 : Rat) (f.net_salary / 100)
  split_ifs <;> linarith

lemma fallback_tax_pre_le (f : TaxFeatures) : fallback_tax_pre f ≤ 100 := by
  unfold fallback_tax_pre
  have := min_le_left (100 : Rat) (f.taxable_income / 1000)
  split_ifs <;> linarith

lemma fallback_bank_pre_le (f : BankFeatures) : fallback_bank_pre f ≤ 100 := by
  unfold fallback_bank_pre
  have h1 := min_le_left (100 : Rat) (f.average_balance / 100)
  have h2 := min_le_left (100 : Rat) (f.avg_monthly_income / 50)
  split_ifs <;> nlinarith

/-- Statement of C10 for one fallback result: the returned status is
determined by the returned score through the thresholds 70 and 50, and is
never INCOMPLETE. -/
def statusMatchesScore (r : FallbackResult) : Prop :=
  (r.status = Status.VALID ↔ 70 ≤ r.score) ∧
  (r.status = Status.SUSPICIOUS ↔ 50 ≤ r.score ∧ r.score < 70) ∧
  (r.status = Status.INVALID ↔ r.score < 50) ∧
  r.status ≠ Status.INCOMPLETE

/-- C10: every MLModelService fallback analysis (CIN, pay slip, tax, bank)
returns status VALID exactly when its returned score is at least 70,
SUSPICIOUS exactly when the score is in [50, 70), INVALID otherwise, and
never returns INCOMPLETE, for every input feature dictionary. -/
theorem c10_fallback_status_from_score (cf : CinFeatures) (pf : PayslipFeatures)
    (tf : TaxFeatures) (bf : BankFeatures) :
    statusMatchesScore (fallback_cin_analysis cf) ∧
    statusMatchesScore (fallback_payslip_analysis pf) ∧
    statusMatchesScore (fallback_tax_analysis tf) ∧
    statusMatchesScore (fallback_bank_analysis bf) :=
  ⟨clip_status_spec (fallback_cin_pre_le cf),
   clip_status_spec (fallback_payslip_pre_le pf),
   clip_status_spec (fallback_tax_pre_le tf),
   clip_status_spec (fallback_bank_pre_le bf)⟩

/-- C8: whenever the computed debt-to-income fraction exceeds the 0.40
maximum, DocumentAnalyzer.calculate_overall_creditworthiness decides
REJECTED — in the eligible branch because of the debt-ratio gate, in the
non-eligible branch because of income or score — and always carries a
nonempty reason string. -/
theorem c8_high_dti_rejected (docs : DocsInput) (rc mp : Rat)
    (h : 0.40 < analyzer_dti docs mp) :
    (calculate_overall_creditworthiness docs rc mp).decision = "REJECTED" ∧
    (calculate_overall_creditworthiness docs rc mp).decision_reason ≠ "" := by
  have h0 : (0 : Rat) < analyzer_dti docs mp := by
    have : (0 : Rat) < 0.40 := by norm_num
    linarith
  unfold calculate_overall_creditworthiness
  by_cases he : (60 ≤ analyzer_overall_score docs ∧ 3000 ≤ analyzer_monthly_income docs)
  · simp [he, h0, h]
  · simp [he]
    split_ifs <;> simp

/-- Documents input for the C8 witness: one pay slip scored (90 + 70)/2 =
80 with net salary 5000, so a 2500 payment gives debt-to-income 0.5. -/
def c8docs : DocsInput :=
  { pay_slips := some [{ salary_score := 90, stability_score := 70, net_salary := 5000 }] }

/-- Witness for C8: at debt-to-income 0.5 > 0.4 the decision is REJECTED
with a nonempty reason although the overall score is 80. -/
theorem c8_witness :
    (calculate_overall_creditworthiness c8docs 100000 2500).decision = "REJECTED" ∧
    (calculate_overall_creditworthiness c8docs 100000 2500).decision_reason ≠ "" :=
  c8_high_dti_rejected c8docs 100000 2500 (by norm_num [analyzer_dti, analyzer_monthly_income, c8docs])

/-- C6: the overall score computed by evaluate_creditworthiness is exactly
the weighted combination 0.35·income + 0.25·consistency + 0.30·debt +
0.10·quality of the four component scores (rounded to two decimals only
when stored in the returned record), the four weights sum to exactly 1,
and the weighted combination is strictly increasing in each component. -/
theorem c6_weighted_overall_score :
    (∀ (docs : List AnalyzedDoc) (rc mp : Rat),
      (evaluate_creditworthiness docs rc mp).overall_score =
        round2 (0.35 * (calculate_income_score docs).1 +
                0.25 * calculate_consistency_score docs +
                0.30 * (calculate_debt_ratio_score
                  (calculate_income_score docs).2.monthly_income rc mp).1 +
                0.10 * document_quality_score docs)) ∧
    ((0.35 : Rat) + 0.25 + 0.30 + 0.10 = 1) ∧
    (∀ i j c d q : Rat, i < j → overall_raw i c d q < overall_raw j c d q) ∧
    (∀ i c c' d q : Rat, c < c' → overall_raw i c d q < overall_raw i c' d q) ∧
    (∀ i c d d' q : Rat, d < d' → overall_raw i c d q < overall_raw i c d' q) ∧
    (∀ i c d q q' : Rat, q < q' → overall_raw i c d q < overall_raw i c d q') := by
  refine ⟨?_, by norm_num, ?_, ?_, ?_, ?_⟩
  · intro docs rc mp
    show round2 (overall_raw _ _ _ _) = _
    congr 1
    unfold overall_raw
    ring
  all_goals
    intro a b c d e h
    unfold overall_raw
    nlinarith

/-- Witness for C6: the overall-score identity at the empty document list
and strict monotonicity in each component at concrete values. -/
theorem c6_witness :
    ((evaluate_creditworthiness [] 0 0).overall_score =
      round2 (0.35 * (calculate_income_score []).1 +
              0.25 * calculate_consistency_score [] +
              0.30 * (calculate_debt_ratio_score
                (calculate_income_score []).2.monthly_income 0 0).1 +
              0.10 * document_quality_score [])) ∧
    overall_raw 10 50 60 70 < overall_raw 11 50 60 70 ∧
    overall_raw 10 50 60 70 < overall_raw 10 51 60 70 ∧
    overall_raw 10 50 60 70 < overall_raw 10 50 61 70 ∧
    overall_raw 10 50 60 70 < overall_raw 10 50 60 71 :=
  ⟨c6_weighted_overall_score.1 [] 0 0,
   c6_weighted_overall_score.2.2.1 10 11 50 60 70 (by norm_num),
   c6_weighted_overall_score.2.2.2.1 10 50 51 60 70 (by norm_num),
   c6_weighted_overall_score.2.2.2.2.1 10 50 60 61 70 (by norm_num),
   c6_weighted_overall_score.2.2.2.2.2 10 50 60 70 71 (by norm_num)⟩

lemma incomeLevelPoints_nonneg (avg : Rat) : 0 ≤ incomeLevelPoints avg := by
  unfold incomeLevelPoints; split_ifs <;> norm_num

lemma incomeConsistencyBonus_nonneg (l : List Rat) (avg : Rat) :
    0 ≤ incomeConsistencyBonus l avg := by
  unfold incomeConsistencyBonus
  dsimp only
  split_ifs <;> norm_num

lemma income_score_bounds (docs : List AnalyzedDoc) :
    0 ≤ (calculate_income_score docs).1 ∧ (calculate_income_score docs).1 ≤ 100 := by
  unfold calculate_income_score
  refine ⟨le_min ?_ (by norm_num), min_le_right _ _⟩
  have hb : (0 : Rat) ≤ 10 * ((taxAnnualIncomes docs).length : Rat) := by positivity
  split_ifs with h h2
  · linarith
  · have h1 := incomeLevelPoints_nonneg
      ((payslipSalaries docs).sum / ((payslipSalaries docs).length : Rat))
    have h3 := incomeConsistencyBonus_nonneg (payslipSalaries docs)
      ((payslipSalaries docs).sum / ((payslipSalaries docs).length : Rat))
    linarith
  · have h1 := incomeLevelPoints_nonneg
      ((payslipSalaries docs).sum / ((payslipSalaries docs).length : Rat))
    linarith

lemma avg_bounds (l : List Rat) (hne : l.length ≠ 0)
    (h0 : ∀ x ∈ l, 0 ≤ x) (h1 : ∀ x ∈ l, x ≤ 100) :
    0 ≤ l.sum / (l.length : Rat) ∧ l.sum / (l.length : Rat) ≤ 100 := by
  have hn : (0 : Rat) < (l.length : Rat) := by
    exact_mod_cast Nat.pos_of_ne_zero hne
  constructor
  · exact div_nonneg (List.sum_nonneg h0) (le_of_lt hn)
  · rw [div_le_iff hn]
    have := List.sum_le_card_nsmul l 100 h1
    simpa [nsmul_eq_mul, mul_comm] using this

lemma consistency_score_bounds (docs : List AnalyzedDoc)
    (h : ∀ d ∈ docs, 0 ≤ d.score ∧ 0 ≤ d.confidence) :
    0 ≤ calculate_consistency_score docs ∧ calculate_consistency_score docs ≤ 100 := by
  unfold calculate_consistency_score
  split_ifs with hlen
  · norm_num
  · have hn : (0 : Rat) < (docs.length : Rat) := by
      exact_mod_cast Nat.pos_of_ne_zero hlen
    refine ⟨le_min ?_ (by norm_num), min_le_right _ _⟩
    have hv : (0 : Rat) ≤
        (((docs.filter (fun d => d.status = Status.VALID)).length : Rat) / (docs.length : Rat)) * 40 := by
      positivity
    have hs : (0 : Rat) ≤ (docs.map (fun d => d.score)).sum := by
      refine List.sum_nonneg ?_
      intro x hx
      obtain ⟨d, hd, rfl⟩ := List.mem_map.mp hx
      exact (h d hd).1
    have hcf : (0 : Rat) ≤ (docs.map (fun d => d.confidence)).sum := by
      refine List.sum_nonneg ?_
      intro x hx
      obtain ⟨d, hd, rfl⟩ := List.mem_map.mp hx
      exact (h d hd).2
    have h2 : (0 : Rat) ≤ (docs.map (fun d => d.score)).sum / (docs.length : Rat) / 100 * 30 := by
      positivity
    have h3 : (0 : Rat) ≤ (docs.map (fun d => d.confidence)).sum / (docs.length : Rat) * 30 := by
      positivity
    linarith

lemma quality_bounds (docs : List AnalyzedDoc)
    (h : ∀ d ∈ docs, 0 ≤ d.score ∧ d.score ≤ 100) :
    0 ≤ document_quality_score docs ∧ document_quality_score docs ≤ 100 := by
  unfold document_quality_score
  split_ifs with hlen
  · norm_num
  · have hmap : (docs.map (fun d => d.score)).length = docs.length := List.length_map _ _
    have := avg_bounds (docs.map (fun d => d.score)) (by rw [hmap]; exact hlen)
      (by intro x hx; obtain ⟨d, hd, rfl⟩ := List.mem_map.mp hx; exact (h d hd).1)
      (by intro x hx; obtain ⟨d, hd, rfl⟩ := List.mem_map.mp hx; exact (h d hd).2)
    rw [hmap] at this
    exact this

lemma debt_score_bounds (mi rc mp : Rat) :
    0 ≤ (calculate_debt_ratio_score mi rc mp).1 ∧
    (calculate_debt_ratio_score mi rc mp).1 ≤ 100 := by
  unfold calculate_debt_ratio_score
  split_ifs with h
  · norm_num
  · dsimp only
    refine ⟨?_, ?_⟩ <;> split_ifs <;> norm_num

/-- C1: every scoring operation stays within [0, 100] for every input
feature dictionary, including adversarial and out-of-range values: the four
per-kind scorers of DocumentScoringService (with or without a trained
model, for any model output), predict_document of DocumentAnalysisModel
(for any regressor output), and the overall_score of
DocumentCreditScorer.evaluate_creditworthiness whenever the supplied
DocumentAnalysisResults respect their own score and confidence ranges
(their extracted net salaries and incomes are arbitrary, e.g. negative). -/
theorem c1_all_scores_in_range :
    (∀ (m : Option (CinFeatures → Rat)) (f : CinFeatures),
      0 ≤ score_cin m f ∧ score_cin m f ≤ 100) ∧
    (∀ (m : Option (PayslipFeatures → Rat)) (f : PayslipFeatures),
      0 ≤ score_payslip m f ∧ score_payslip m f ≤ 100) ∧
    (∀ (m : Option (TaxFeatures → Rat)) (f : TaxFeatures),
      0 ≤ score_tax m f ∧ score_tax m f ≤ 100) ∧
    (∀ (m : Option (BankFeatures → Rat)) (f : BankFeatures),
      0 ≤ score_bank m f ∧ score_bank m f ≤ 100) ∧
    (∀ (st : Status) (conf r : Rat),
      0 ≤ (predict_document st conf r).score ∧ (predict_document st conf r).score ≤ 100) ∧
    (∀ (docs : List AnalyzedDoc) (rc mp : Rat),
      (∀ d ∈ docs, 0 ≤ d.score ∧ d.score ≤ 100 ∧ 0 ≤ d.confidence ∧ d.confidence ≤ 1) →
      0 ≤ (evaluate_creditworthiness docs rc mp).overall_score ∧
      (evaluate_creditworthiness docs rc mp).overall_score ≤ 100) := by
  refine ⟨?_, ?_, ?_, ?_, ?_, ?_⟩
  · intro m f
    cases m
    · exact ⟨clip100_nonneg _, clip100_le_hundred _⟩
    · exact ⟨clip100_nonneg _, clip100_le_hundred _⟩
  · intro m f
    cases m
    · exact ⟨clip100_nonneg _, clip100_le_hundred _⟩
    · exact ⟨clip100_nonneg _, clip100_le_hundred _⟩
  · intro m f
    cases m
    · exact ⟨clip100_nonneg _, clip100_le_hundred _⟩
    · exact ⟨clip100_nonneg _, clip100_le_hundred _⟩
  · intro m f
    cases m
    · exact ⟨clip100_nonneg _, clip100_le_hundred _⟩
    · exact ⟨clip100_nonneg _, clip100_le_hundred _⟩
  · intro st conf r
    exact ⟨round2_nonneg (clip100_nonneg _), round2_le_hundred (clip100_le_hundred _)⟩
  · intro docs rc mp h
    have hi := income_score_bounds docs
    have hc := consistency_score_bounds docs (fun d hd => ⟨(h d hd).1, (h d hd).2.2.1⟩)
    have hq := quality_bounds docs (fun d hd => ⟨(h d hd).1, (h d hd).2.1⟩)
    have hd := debt_score_bounds (calculate_income_score docs).2.monthly_income rc mp
    show 0 ≤ round2 (overall_raw _ _ _ _) ∧ round2 (overall_raw _ _ _ _) ≤ 100
    constructor
    · refine round2_nonneg ?_
      unfold overall_raw
      nlinarith [hi.1, hc.1, hq.1, hd.1]
    · refine round2_le_hundred ?_
      unfold overall_raw
      nlinarith [hi.2, hc.2, hq.2, hd.2]

/-- Witness for C1 at the fallback CIN scorer and the empty document list
(the range hypothesis on the documents is vacuous there). -/
theorem c1_witness :
    (0 ≤ score_cin none
        { is_expired := false, ocr_confidence := 0.9, image_quality := 0.9,
          has_photo := true, text_legible := true, correct_format := true } ∧
     score_cin none
        { is_expired := false, ocr_confidence := 0.9, image_quality := 0.9,
          has_photo := true, text_legible := true, correct_format := true } ≤ 100) ∧
    (0 ≤ (evaluate_creditworthiness [] 0 0).overall_score ∧
     (evaluate_creditworthiness [] 0 0).overall_score ≤ 100) :=
  ⟨c1_all_scores_in_range.1 none _,
   c1_all_scores_in_range.2.2.2.2.2 [] 0 0 (by simp)⟩

lemma payslipChecks_nonneg (p : PaySlipParsed) : 0 ≤ (payslipChecks p).1 := by
  unfold payslipChecks
  rcases truthyVal p.net_salary with _ | nv <;>
  rcases truthyVal p.gross_salary with _ | gv <;>
  dsimp only <;> split_ifs <;> simp_all <;> norm_num

lemma taxChecks_nonneg (t : TaxParsed) : 0 ≤ (taxChecks t).1 := by
  unfold taxChecks
  rcases truthyVal t.gross_annual_income with _ | gv <;>
  rcases truthyVal t.taxable_income with _ | tv <;>
  dsimp only <;> split_ifs <;> simp_all <;> norm_num

lemma bankChecks_nonneg (b : BankParsed) : 0 ≤ (bankChecks b).1 := by
  unfold bankChecks
  rcases truthyVal b.closing_balance with _ | bv <;>
  dsimp only <;> split_ifs <;> simp_all <;> norm_num

/-- C9: every DocumentAnalysisResult produced by analyze_document — for
any document type, any extracted-text length, and any parsed field values,
including ones where every validation check fails — has confidence within
[0, 1] and score within [0, 100]. -/
theorem c9_result_in_range (dt : DocType) (textLen : Nat)
    (p : PaySlipParsed) (t : TaxParsed) (b : BankParsed) :
    0 ≤ (analyze_document dt textLen p t b).confidence ∧
    (analyze_document dt textLen p t b).confidence ≤ 1 ∧
    0 ≤ (analyze_document dt textLen p t b).score ∧
    (analyze_document dt textLen p t b).score ≤ 100 := by
  unfold analyze_document
  split_ifs with hlen
  · norm_num
  · dsimp only
    have hsi : 0 ≤ (match dt with
      | DocType.paySlip => payslipChecks p
      | DocType.taxDeclaration => taxChecks t
      | DocType.bankStatement => bankChecks b
      | _ => ((50 : Rat), ([] : List String))).1 := by
      cases dt
      exacts [payslipChecks_nonneg p, taxChecks_nonneg t, bankChecks_nonneg b,
        by norm_num, by norm_num]
    set si := (match dt with
      | DocType.paySlip => payslipChecks p
      | DocType.taxDeclaration => taxChecks t
      | DocType.bankStatement => bankChecks b
      | _ => ((50 : Rat), ([] : List String))) with hsidef
    have hs1 : 0 ≤ (if si.1 < 30 then (Status.INVALID, si.1)
        else if 3 < si.2.length then (Status.SUSPICIOUS, si.1)
        else if 0 < si.2.length then (Status.INCOMPLETE, si.1)
        else (Status.VALID, si.1 + 20)).2 := by
      split_ifs <;> dsimp only <;> linarith
    refine ⟨le_min (by positivity) (by norm_num), min_le_right _ _,
      clip100_nonneg _, clip100_le_hundred _⟩
